import Mathlib

/-!
Shallow embedding of the MayaFlux Conan recipe (`conanfile.py`):
the option model (`config_options`, `configure`), the requirement
resolver (`requirements`), the toolchain variable generator
(`generate`) and the packaging emitter (`package_info`), together
with theorems settling the specification claims about them.
-/

/-- Target operating system, as branched on by the recipe.  The source
only ever compares `self.settings.os` against the literals `"Windows"`
and `"Macos"`; `other` stands for every remaining platform
(Linux, BSD, ...), all of which the recipe treats identically. -/
inductive OS where
  | windows
  | macos
  | other
deriving DecidableEq, Repr

/-- The recipe's option state: its own three options (`shared`, `fPIC`,
`with_lila`) and the per-dependency shared-library overrides declared in
`default_options` (`self.options["<dep>"].shared`).  A field of type
`Option Bool` is `none` when the option has been deleted (`del`) or, for
an override, when no entry for that dependency is present. -/
structure Options where
  shared : Bool
  fPIC : Option Bool
  with_lila : Bool
  ffmpeg_shared : Option Bool
  llvm_shared : Option Bool
  rtaudio_shared : Option Bool
  glfw_shared : Option Bool
  vulkan_loader_shared : Option Bool
deriving DecidableEq, Repr

/-- The `default_options` dictionary of the recipe: `shared=True`,
`fPIC=True`, `with_lila=True`, and every declared dependency override
(`ffmpeg:shared`, `llvm:shared`, `rtaudio:shared`, `glfw:shared`,
`vulkan-loader:shared`) set to `True`. -/
def default_options : Options :=
  { shared := true
    fPIC := some true
    with_lila := true
    ffmpeg_shared := some true
    llvm_shared := some true
    rtaudio_shared := some true
    glfw_shared := some true
    vulkan_loader_shared := some true }

/-- `config_options`: on Windows, delete the `fPIC` option entirely and
force the `ffmpeg` and `rtaudio` overrides to static (`shared = False`);
on every other platform, leave the options untouched. -/
def config_options (os : OS) (o : Options) : Options :=
  let o := if os = OS.windows then { o with fPIC := none } else o
  if os = OS.windows then
    { o with ffmpeg_shared := some false, rtaudio_shared := some false }
  else o

/-- `configure`: if `with_lila` is disabled, assign
`self.options["llvm"].shared = False`; otherwise do nothing. -/
def configure (o : Options) : Options :=
  if !o.with_lila then { o with llvm_shared := some false } else o

/-- One `self.requires(...)` call: append a (name, version) declaration
to the dependency list accumulated so far. -/
def requires (dep : String × String) (acc : List (String × String)) :
    List (String × String) :=
  acc ++ [dep]

/-- The `requirements` method, one `let` per `self.requires` call in
source order: seven unconditional multimedia/graphics dependencies, then
the platform-conditional parallel backend (`ms-gsl` on Windows, `tbb`
elsewhere), then `fmt` and `gtest`, then `llvm` when `with_lila` is on. -/
def requirements (os : OS) (o : Options) : List (String × String) :=
  let deps : List (String × String) := []
  let deps := requires ("rtaudio", "5.2.0") deps
  let deps := requires ("eigen", "3.4.0") deps
  let deps := requires ("magic_enum", "0.9.3") deps
  let deps := requires ("glfw", "3.3.8") deps
  let deps := requires ("ffmpeg", "5.1.2") deps
  let deps := requires ("vulkan-loader", "1.3.250.0") deps
  let deps := requires ("vulkan-headers", "1.3.250.0") deps
  let deps :=
    if os = OS.windows then requires ("ms-gsl", "4.0.0") deps
    else requires ("tbb", "2020.3") deps
  let deps := requires ("fmt", "10.0.0") deps
  let deps := requires ("gtest", "1.14.0") deps
  let deps := if o.with_lila then requires ("llvm", "17.0.6") deps else deps
  deps

/-- Modelled from the spec and the claim text of the Requirement
Resolver rule order (for refinement comparison only): all nine
unconditional dependencies first — audio I/O, linear-algebra,
enum-reflection, windowing, media codec/container, graphics-API loader,
graphics-API headers, string-formatting, test framework — then the
platform-conditional parallel backend, then the conditional `llvm`. -/
def requirements_claimed (os : OS) (o : Options) : List (String × String) :=
  [("rtaudio", "5.2.0"), ("eigen", "3.4.0"), ("magic_enum", "0.9.3"),
   ("glfw", "3.3.8"), ("ffmpeg", "5.1.2"), ("vulkan-loader", "1.3.250.0"),
   ("vulkan-headers", "1.3.250.0"), ("fmt", "10.0.0"), ("gtest", "1.14.0")]
  ++ (if os = OS.windows then [("ms-gsl", "4.0.0")] else [("tbb", "2020.3")])
  ++ (if o.with_lila then [("llvm", "17.0.6")] else [])

/-- One assignment `tc.variables[k] = v`.  All keys assigned by the
recipe are distinct, so appending is equivalent to dictionary update. -/
def setVar (k : String) (v : Bool) (tc : List (String × Bool)) :
    List (String × Bool) :=
  tc ++ [(k, v)]

/-- Lookup of a toolchain variable by name. -/
def lookupVar (k : String) : List (String × Bool) → Option Bool
  | [] => none
  | (k', v) :: rest => if k = k' then some v else lookupVar k rest

/-- The `generate` method's toolchain variable assignments, in source
order: `BUILD_LILA` from `with_lila`, the constant `MAYAFLUX_USE_CONAN`,
the platform-conditional parallel backend flag, and `MAYAFLUX_USE_FMT`
on macOS only. -/
def generate (os : OS) (o : Options) : List (String × Bool) :=
  let tc : List (String × Bool) := []
  let tc := setVar "BUILD_LILA" o.with_lila tc
  let tc := setVar "MAYAFLUX_USE_CONAN" true tc
  let tc :=
    if os = OS.windows then setVar "USE_PPL_BACKEND" true tc
    else setVar "USE_TBB_BACKEND" true tc
  let tc := if os = OS.macos then setVar "MAYAFLUX_USE_FMT" true tc else tc
  tc

/-- A named sub-component of the package, with its own library list and
required transitive link targets (`cpp_info.components[...]`). -/
structure Component where
  name : String
  libs : List String
  requires : List String
deriving DecidableEq, Repr

/-- The consumption metadata published by `package_info`: primary
library names, optional sub-components, and the OS-conditional
installation directory layout.  A directory field is `none` when the
corresponding branch of `package_info` does not assign it. -/
structure PackageManifest where
  libs : List String
  components : List Component
  bindirs : Option (List String)
  libdirs : Option (List String)
deriving DecidableEq, Repr

/-- The `package_info` method: declare `MayaFluxLib`, add the `lila`
component (libraries `["Lila"]`, requiring `llvm::llvm`, `clang::clang`
and `mayaflux::mayaflux`) when `with_lila` is on, and set `bindirs` on
Windows and `libdirs` elsewhere. -/
def package_info (os : OS) (o : Options) : PackageManifest :=
  let m : PackageManifest :=
    { libs := ["MayaFluxLib"], components := [], bindirs := none, libdirs := none }
  let m :=
    if o.with_lila then
      { m with components := m.components ++
          [{ name := "lila", libs := ["Lila"],
             requires := ["llvm::llvm", "clang::clang", "mayaflux::mayaflux"] }] }
    else m
  if os = OS.windows then { m with bindirs := some ["bin"] }
  else { m with libdirs := some ["lib"] }

/-- Claim C1 counterexample: on a non-Windows platform with default
options, the dependency list produced by `requirements` differs from the
claimed order (nine unconditional dependencies first, then the parallel
backend, then `llvm`): the parallel backend `tbb` appears before `fmt`
and `gtest`, not after them. -/
theorem requirements_order_counterexample :
    requirements OS.other default_options ≠
      requirements_claimed OS.other default_options := by
  decide

/-- Claim C1 (amended): for every platform and option assignment,
`requirements` is the concatenation of the rule outputs in the declared
source order: seven unconditional dependencies (audio I/O,
linear-algebra, enum-reflection, windowing, media codec/container,
graphics-API loader, graphics-API headers), then the
platform-conditional parallel backend, then the string-formatting and
test-framework dependencies, then the conditional `llvm` rule. -/
theorem requirements_declared_order (os : OS) (o : Options) :
    requirements os o =
      [("rtaudio", "5.2.0"), ("eigen", "3.4.0"), ("magic_enum", "0.9.3"),
       ("glfw", "3.3.8"), ("ffmpeg", "5.1.2"), ("vulkan-loader", "1.3.250.0"),
       ("vulkan-headers", "1.3.250.0")]
      ++ (if os = OS.windows then [("ms-gsl", "4.0.0")] else [("tbb", "2020.3")])
      ++ [("fmt", "10.0.0"), ("gtest", "1.14.0")]
      ++ (if o.with_lila then [("llvm", "17.0.6")] else []) := by
  cases os <;> cases h : o.with_lila <;> simp [requirements, requires, h]

/-- Claim C2 counterexample: with `with_lila = false`, `configure` does
not remove the `llvm` override entry — it assigns it the value
`shared = False`, so the override entry is still present. -/
theorem configure_llvm_override_present :
    (configure { default_options with with_lila := false }).llvm_shared ≠ none ∧
      (configure { default_options with with_lila := false }).llvm_shared =
        some false := by
  decide

/-- Claim C2 (amended): for every option state with `with_lila` false,
after `configure` the `llvm` dependency override is still present and is
assigned the value `shared = false`; the entry is not removed. -/
theorem configure_llvm_override_static (o : Options)
    (h : o.with_lila = false) :
    (configure o).llvm_shared = some false ∧
      (configure o).llvm_shared ≠ none := by
  simp [configure, h]

/-- Witness for `configure_llvm_override_static` at a concrete input. -/
theorem configure_llvm_override_static_witness :
    ({ default_options with with_lila := false } : Options).with_lila = false ∧
      ((configure { default_options with with_lila := false }).llvm_shared =
          some false ∧
        (configure { default_options with with_lila := false }).llvm_shared ≠
          none) :=
  ⟨rfl, configure_llvm_override_static { default_options with with_lila := false } rfl⟩

/-- Claim C3: for every platform and option state, the generated
toolchain variables set exactly one parallel-backend flag to true:
`USE_PPL_BACKEND` precisely on Windows, `USE_TBB_BACKEND` precisely on
every other platform — never both and never neither. -/
theorem generate_parallel_backend_exclusive (os : OS) (o : Options) :
    ((lookupVar "USE_PPL_BACKEND" (generate os o) = some true ∧
        lookupVar "USE_TBB_BACKEND" (generate os o) = none) ∨
      (lookupVar "USE_TBB_BACKEND" (generate os o) = some true ∧
        lookupVar "USE_PPL_BACKEND" (generate os o) = none)) ∧
    (lookupVar "USE_PPL_BACKEND" (generate os o) = some true ↔
      os = OS.windows) ∧
    (lookupVar "USE_TBB_BACKEND" (generate os o) = some true ↔
      os ≠ OS.windows) := by
  cases os <;> simp [generate, setVar, lookupVar]

/-- Witness for `generate_parallel_backend_exclusive` at a concrete
input. -/
theorem generate_parallel_backend_exclusive_witness :
    ((lookupVar "USE_PPL_BACKEND" (generate OS.windows default_options) = some true ∧
        lookupVar "USE_TBB_BACKEND" (generate OS.windows default_options) = none) ∨
      (lookupVar "USE_TBB_BACKEND" (generate OS.windows default_options) = some true ∧
        lookupVar "USE_PPL_BACKEND" (generate OS.windows default_options) = none)) ∧
    (lookupVar "USE_PPL_BACKEND" (generate OS.windows default_options) = some true ↔
      OS.windows = OS.windows) ∧
    (lookupVar "USE_TBB_BACKEND" (generate OS.windows default_options) = some true ↔
      OS.windows ≠ OS.windows) :=
  generate_parallel_backend_exclusive OS.windows default_options

/-- Claim C4: after `config_options` on the default options, the `fPIC`
option is present if and only if the platform is not Windows; on
Windows it is removed entirely (`none`), not set to a default value,
and elsewhere it keeps its default value `true`. -/
theorem config_options_fPIC_presence (os : OS) :
    ((config_options os default_options).fPIC.isSome ↔ os ≠ OS.windows) ∧
      ((config_options os default_options).fPIC = none ↔ os = OS.windows) ∧
      (os ≠ OS.windows →
        (config_options os default_options).fPIC = some true) := by
  cases os <;> simp [config_options, default_options]

/-- Witness for `config_options_fPIC_presence` at a concrete input. -/
theorem config_options_fPIC_presence_witness :
    ((config_options OS.other default_options).fPIC.isSome ↔
        OS.other ≠ OS.windows) ∧
      ((config_options OS.other default_options).fPIC = none ↔
        OS.other = OS.windows) ∧
      (OS.other ≠ OS.windows →
        (config_options OS.other default_options).fPIC = some true) :=
  config_options_fPIC_presence OS.other

/-- Claim C5: for every platform, when `with_lila` is false the
dependency list produced by `requirements` contains no declaration named
`llvm` and none named `clang`. -/
theorem requirements_no_llvm_without_lila (os : OS) (o : Options)
    (h : o.with_lila = false) :
    "llvm" ∉ (requirements os o).map Prod.fst ∧
      "clang" ∉ (requirements os o).map Prod.fst := by
  cases os <;> simp [requirements, requires, h]

/-- Witness for `requirements_no_llvm_without_lila` at a concrete
input. -/
theorem requirements_no_llvm_without_lila_witness :
    ({ default_options with with_lila := false } : Options).with_lila = false ∧
      ("llvm" ∉ (requirements OS.other
          { default_options with with_lila := false }).map Prod.fst ∧
        "clang" ∉ (requirements OS.other
          { default_options with with_lila := false }).map Prod.fst) :=
  ⟨rfl, requirements_no_llvm_without_lila OS.other
    { default_options with with_lila := false } rfl⟩

/-- Claim C6: on Windows with default options, `config_options` forces
the `ffmpeg` and `rtaudio` overrides to static linking
(`shared = false`), while the other shared-library overrides (`llvm`,
`glfw`, `vulkan-loader`) and the global `shared` option keep their
default value `true`. -/
theorem config_options_windows_static_overrides :
    (config_options OS.windows default_options).ffmpeg_shared = some false ∧
      (config_options OS.windows default_options).rtaudio_shared = some false ∧
      (config_options OS.windows default_options).llvm_shared = some true ∧
      (config_options OS.windows default_options).glfw_shared = some true ∧
      (config_options OS.windows default_options).vulkan_loader_shared =
        some true ∧
      (config_options OS.windows default_options).shared = true := by
  decide

/-- Claim C7: for every platform and option state with `with_lila`
true, the package manifest produced by `package_info` contains the
`lila` sub-component with its own library `Lila`, and its required
transitive link targets are exactly `llvm::llvm`, `clang::clang` and
the primary library's exported target `mayaflux::mayaflux`. -/
theorem package_info_lila_component (os : OS) (o : Options)
    (h : o.with_lila = true) :
    (package_info os o).components =
      [{ name := "lila", libs := ["Lila"],
         requires := ["llvm::llvm", "clang::clang", "mayaflux::mayaflux"] }] := by
  cases os <;> simp [package_info, h]

/-- Witness for `package_info_lila_component` at a concrete input. -/
theorem package_info_lila_component_witness :
    default_options.with_lila = true ∧
      (package_info OS.other default_options).components =
        [{ name := "lila", libs := ["Lila"],
           requires := ["llvm::llvm", "clang::clang", "mayaflux::mayaflux"] }] :=
  ⟨rfl, package_info_lila_component OS.other default_options rfl⟩

/-- Claim C8: for every platform and option state, the toolchain
variable `MAYAFLUX_USE_FMT` is present with value true exactly when the
platform is macOS, and is absent on every other platform. -/
theorem generate_use_fmt_iff_macos (os : OS) (o : Options) :
    (lookupVar "MAYAFLUX_USE_FMT" (generate os o) = some true ↔
      os = OS.macos) ∧
    (lookupVar "MAYAFLUX_USE_FMT" (generate os o) = none ↔
      os ≠ OS.macos) := by
  cases os <;> simp [generate, setVar, lookupVar]

/-- Witness for `generate_use_fmt_iff_macos` at a concrete input. -/
theorem generate_use_fmt_iff_macos_witness :
    (lookupVar "MAYAFLUX_USE_FMT" (generate OS.macos default_options) =
        some true ↔ OS.macos = OS.macos) ∧
    (lookupVar "MAYAFLUX_USE_FMT" (generate OS.macos default_options) =
        none ↔ OS.macos ≠ OS.macos) :=
  generate_use_fmt_iff_macos OS.macos default_options

/-- Claim C9: frame property of `configure` — it never changes the
`shared`, `fPIC`, `with_lila` options nor the `ffmpeg`, `rtaudio`,
`glfw`, `vulkan-loader` overrides, and when `with_lila` is true it
changes nothing at all (only the `llvm` override can be modified, and
only when `with_lila` is false). -/
theorem configure_frame (o : Options) :
    (configure o).shared = o.shared ∧
      (configure o).fPIC = o.fPIC ∧
      (configure o).with_lila = o.with_lila ∧
      (configure o).ffmpeg_shared = o.ffmpeg_shared ∧
      (configure o).rtaudio_shared = o.rtaudio_shared ∧
      (configure o).glfw_shared = o.glfw_shared ∧
      (configure o).vulkan_loader_shared = o.vulkan_loader_shared ∧
      (o.with_lila = true → configure o = o) := by
  cases h : o.with_lila <;> simp [configure, h]

/-- Witness for `configure_frame` at a concrete input. -/
theorem configure_frame_witness :
    (configure default_options).shared = default_options.shared ∧
      (configure default_options).fPIC = default_options.fPIC ∧
      (configure default_options).with_lila = default_options.with_lila ∧
      (configure default_options).ffmpeg_shared =
        default_options.ffmpeg_shared ∧
      (configure default_options).rtaudio_shared =
        default_options.rtaudio_shared ∧
      (configure default_options).glfw_shared = default_options.glfw_shared ∧
      (configure default_options).vulkan_loader_shared =
        default_options.vulkan_loader_shared ∧
      (default_options.with_lila = true →
        configure default_options = default_options) :=
  configure_frame default_options

/-- Claim C10: for every platform and option state, the dependency
names emitted by `requirements` are pairwise distinct — each dependency
appears at most once, with a single exact version — so no two rules of
this recipe ever declare the same dependency name with conflicting
version constraints. -/
theorem requirements_names_nodup (os : OS) (o : Options) :
    ((requirements os o).map Prod.fst).Nodup := by
  cases os <;> cases h : o.with_lila <;>
    simp [requirements, requires, h]

/-- Witness for `requirements_names_nodup` at a concrete input. -/
theorem requirements_names_nodup_witness :
    ((requirements OS.windows default_options).map Prod.fst).Nodup :=
  requirements_names_nodup OS.windows default_options

/-- Witness for `requirements_declared_order` at a concrete input. -/
theorem requirements_declared_order_witness :
    requirements OS.other default_options =
      [("rtaudio", "5.2.0"), ("eigen", "3.4.0"), ("magic_enum", "0.9.3"),
       ("glfw", "3.3.8"), ("ffmpeg", "5.1.2"), ("vulkan-loader", "1.3.250.0"),
       ("vulkan-headers", "1.3.250.0")]
      ++ (if OS.other = OS.windows then [("ms-gsl", "4.0.0")]
          else [("tbb", "2020.3")])
      ++ [("fmt", "10.0.0"), ("gtest", "1.14.0")]
      ++ (if default_options.with_lila then [("llvm", "17.0.6")] else []) :=
  requirements_declared_order OS.other default_options
